import Mathlib

/-!
Verification of the request handler of the aws-cdk-examples repository
(`python/apigw-http-api-lambda-dynamodb-python-cdk/lambda/apigw-handler/index.py`).

The handler is embedded shallowly: the incoming Lambda event, the invocation
context, the DynamoDB client and the `uuid` generator become explicit
parameters, and the handler becomes a total Lean function returning the
HTTP-shaped response, the list of attempted store puts, and the emitted
structured log events.  JSON numbers are modelled as integers (the claims
under verification never involve floating point).
-/

namespace AwsExample

/-- A parsed JSON value, as produced by the Python function `json.loads`.
Numbers are restricted to integers in this model. -/
inductive Json where
  | null
  | bool (b : Bool)
  | num (n : Int)
  | str (s : String)
  | arr (elts : List Json)
  | obj (fields : List (String × Json))

/-- Last-binding-wins lookup: Python builds a `dict` from a JSON object, so a
duplicated key keeps its last occurrence. -/
def lookupLast (kvs : List (String × Json)) (k : String) : Option Json :=
  match kvs with
  | [] => none
  | (k0, v0) :: rest =>
    match lookupLast rest k with
    | some v => some v
    | none => if k0 = k then some v0 else none

/-- The left brace character, kept out of string literals. -/
def lbrace : Char := Char.ofNat 123

/-- The right brace character, kept out of string literals. -/
def rbrace : Char := Char.ofNat 125

/-- The single-quote character. -/
def squote : Char := Char.ofNat 39

/-- Escaping used by Python `repr` on strings (approximated: backslash, the
single quote and the common control characters). -/
def pyEscapeChar (c : Char) : String :=
  if c = '\\' then "\\\\"
  else if c = squote then "\\" ++ String.singleton squote
  else if c = '\n' then "\\n"
  else if c = '\r' then "\\r"
  else if c = '\t' then "\\t"
  else String.singleton c

def pyEscape (s : String) : String :=
  String.join (s.data.map pyEscapeChar)

mutual
/-- Python `repr` of a value obtained from `json.loads` (used by `str` inside
containers). -/
def pyRepr : Json → String
  | .null => "None"
  | .bool true => "True"
  | .bool false => "False"
  | .num n => toString n
  | .str s => String.singleton squote ++ pyEscape s ++ String.singleton squote
  | .arr elts => "[" ++ pyReprArr elts ++ "]"
  | .obj fields => String.singleton lbrace ++ pyReprObj fields ++ String.singleton rbrace

def pyReprArr : List Json → String
  | [] => ""
  | [x] => pyRepr x
  | x :: y :: rest => pyRepr x ++ ", " ++ pyReprArr (y :: rest)

def pyReprObj : List (String × Json) → String
  | [] => ""
  | [(k, v)] => String.singleton squote ++ pyEscape k ++ String.singleton squote ++ ": " ++ pyRepr v
  | (k, v) :: p :: rest =>
    String.singleton squote ++ pyEscape k ++ String.singleton squote ++ ": " ++ pyRepr v
      ++ ", " ++ pyReprObj (p :: rest)
end

/-- Python `str()` of a value obtained from `json.loads`, as applied by the
handler to the `year`, `title` and `id` fields before the store write. -/
def pyStr : Json → String
  | .null => "None"
  | .bool true => "True"
  | .bool false => "False"
  | .num n => toString n
  | .str s => s
  | .arr elts => "[" ++ pyReprArr elts ++ "]"
  | .obj fields => String.singleton lbrace ++ pyReprObj fields ++ String.singleton rbrace

/-! ### A model of `json.loads`

A fueled recursive-descent parser.  It accepts the JSON fragment the handler
can meet, with numbers restricted to integer numerals; any other input is a
parse error, which is what the generic handler `except` path receives. -/

def isWs (c : Char) : Bool :=
  c = ' ' || c = '\t' || c = '\n' || c = '\r'

def skipWs : List Char → List Char
  | [] => []
  | c :: cs => if isWs c then skipWs cs else c :: cs

def hexVal (c : Char) : Option Nat :=
  if '0' ≤ c ∧ c ≤ '9' then some (c.toNat - 48)
  else if 'a' ≤ c ∧ c ≤ 'f' then some (c.toNat - 87)
  else if 'A' ≤ c ∧ c ≤ 'F' then some (c.toNat - 55)
  else none

def parseStringBody (fuel : Nat) (cs : List Char) : Except String (String × List Char) :=
  match fuel with
  | 0 => .error "fuel exhausted"
  | fuel + 1 =>
    match cs with
    | [] => .error "Unterminated string"
    | c :: rest =>
      if c = '"' then .ok ("", rest)
      else if c = '\\' then
        match rest with
        | [] => .error "Unterminated string"
        | e :: rest2 =>
          if e = 'u' then
            match rest2 with
            | a :: b :: c3 :: d :: rest3 =>
              match hexVal a, hexVal b, hexVal c3, hexVal d with
              | some ha, some hb, some hc, some hd =>
                match parseStringBody fuel rest3 with
                | .ok (s, restOut) =>
                  .ok (String.singleton (Char.ofNat (((ha * 16 + hb) * 16 + hc) * 16 + hd)) ++ s, restOut)
                | .error m => .error m
              | _, _, _, _ => .error "Invalid \\uXXXX escape"
            | _ => .error "Invalid \\uXXXX escape"
          else
            let decoded : Except String Char :=
              if e = '"' then .ok '"'
              else if e = '\\' then .ok '\\'
              else if e = '/' then .ok '/'
              else if e = 'b' then .ok (Char.ofNat 8)
              else if e = 'f' then .ok (Char.ofNat 12)
              else if e = 'n' then .ok '\n'
              else if e = 'r' then .ok '\r'
              else if e = 't' then .ok '\t'
              else .error "Invalid escape"
            match decoded with
            | .error m => .error m
            | .ok ch =>
              match parseStringBody fuel rest2 with
              | .ok (s, restOut) => .ok (String.singleton ch ++ s, restOut)
              | .error m => .error m
      else
        match parseStringBody fuel rest with
        | .ok (s, restOut) => .ok (String.singleton c ++ s, restOut)
        | .error m => .error m

def digitsToNat (ds : List Char) : Nat :=
  ds.foldl (fun a c => 10 * a + (c.toNat - 48)) 0

def parseNumber (cs : List Char) : Except String (Json × List Char) :=
  let (neg, cs1) :=
    match cs with
    | c :: rest => if c = '-' then (true, rest) else (false, cs)
    | [] => (false, cs)
  let ds := cs1.takeWhile Char.isDigit
  if ds.isEmpty then .error "Expecting value"
  else
    let n : Int := Int.ofNat (digitsToNat ds)
    .ok (.num (if neg then -n else n), cs1.drop ds.length)

def expectLit (lit : List Char) (cs : List Char) : Option (List Char) :=
  match lit, cs with
  | [], rest => some rest
  | l :: ls, c :: rest => if c = l then expectLit ls rest else none
  | _ :: _, [] => none

mutual
def parseValue (fuel : Nat) (cs : List Char) : Except String (Json × List Char) :=
  match fuel with
  | 0 => .error "fuel exhausted"
  | fuel + 1 =>
    match skipWs cs with
    | [] => .error "Expecting value"
    | c :: rest =>
      if c = '"' then
        match parseStringBody fuel rest with
        | .ok (s, restOut) => .ok (.str s, restOut)
        | .error m => .error m
      else if c = '-' ∨ c.isDigit then parseNumber (c :: rest)
      else if c = 't' then
        match expectLit ['r', 'u', 'e'] rest with
        | some restOut => .ok (.bool true, restOut)
        | none => .error "Expecting value"
      else if c = 'f' then
        match expectLit ['a', 'l', 's', 'e'] rest with
        | some restOut => .ok (.bool false, restOut)
        | none => .error "Expecting value"
      else if c = 'n' then
        match expectLit ['u', 'l', 'l'] rest with
        | some restOut => .ok (.null, restOut)
        | none => .error "Expecting value"
      else if c = '[' then parseArray fuel rest
      else if c = lbrace then parseObject fuel rest
      else .error "Expecting value"

def parseArray (fuel : Nat) (cs : List Char) : Except String (Json × List Char) :=
  match fuel with
  | 0 => .error "fuel exhausted"
  | fuel + 1 =>
    match skipWs cs with
    | c :: rest =>
      if c = ']' then .ok (.arr [], rest)
      else
        match parseValue fuel cs with
        | .error m => .error m
        | .ok (v, rest1) => parseArrayRest fuel [v] rest1
    | [] => .error "Expecting value"

def parseArrayRest (fuel : Nat) (acc : List Json) (cs : List Char) :
    Except String (Json × List Char) :=
  match fuel with
  | 0 => .error "fuel exhausted"
  | fuel + 1 =>
    match skipWs cs with
    | c :: rest =>
      if c = ']' then .ok (.arr acc.reverse, rest)
      else if c = ',' then
        match parseValue fuel rest with
        | .error m => .error m
        | .ok (v, rest1) => parseArrayRest fuel (v :: acc) rest1
      else .error "Expecting comma"
    | [] => .error "Expecting comma"

def parseObject (fuel : Nat) (cs : List Char) : Except String (Json × List Char) :=
  match fuel with
  | 0 => .error "fuel exhausted"
  | fuel + 1 =>
    match skipWs cs with
    | c :: rest =>
      if c = rbrace then .ok (.obj [], rest)
      else if c = '"' then
        match parseStringBody fuel rest with
        | .error m => .error m
        | .ok (k, rest1) =>
          match skipWs rest1 with
          | c2 :: rest2 =>
            if c2 = ':' then
              match parseValue fuel rest2 with
              | .error m => .error m
              | .ok (v, rest3) => parseObjectRest fuel [(k, v)] rest3
            else .error "Expecting colon"
          | [] => .error "Expecting colon"
      else .error "Expecting property name"
    | [] => .error "Expecting property name"

def parseObjectRest (fuel : Nat) (acc : List (String × Json)) (cs : List Char) :
    Except String (Json × List Char) :=
  match fuel with
  | 0 => .error "fuel exhausted"
  | fuel + 1 =>
    match skipWs cs with
    | c :: rest =>
      if c = rbrace then .ok (.obj acc.reverse, rest)
      else if c = ',' then
        match skipWs rest with
        | c2 :: rest2 =>
          if c2 = '"' then
            match parseStringBody fuel rest2 with
            | .error m => .error m
            | .ok (k, rest3) =>
              match skipWs rest3 with
              | c3 :: rest4 =>
                if c3 = ':' then
                  match parseValue fuel rest4 with
                  | .error m => .error m
                  | .ok (v, rest5) => parseObjectRest fuel ((k, v) :: acc) rest5
                else .error "Expecting colon"
              | [] => .error "Expecting colon"
          else .error "Expecting property name"
        | [] => .error "Expecting property name"
      else .error "Expecting comma"
    | [] => .error "Expecting comma"
end

/-- Model of Python `json.loads`: parse a whole string, demanding only
whitespace after the value. -/
def json_loads (s : String) : Except String Json :=
  match parseValue (8 * s.length + 8) s.data with
  | .error m => .error m
  | .ok (v, rest) =>
    match skipWs rest with
    | [] => .ok v
    | _ :: _ => .error "Extra data"

/-! ### The Lambda event, context and collaborators -/

/-- Request metadata from `event["requestContext"]`, used only for the
`request_received` log line; each field may be absent. -/
structure RequestContext where
  sourceIp : Option String
  userAgent : Option String
  httpMethod : Option String
deriving Repr, DecidableEq

/-- The inbound Lambda event.  `body` is the raw request body: `none` models
both an absent `body` key and a JSON `null` value (both are falsy in
`event.get("body")`); the empty string is kept distinct because it is also
falsy yet present. -/
structure Event where
  body : Option String
  requestContext : Option RequestContext
deriving Repr, DecidableEq

/-- The invocation context; only `request_id` is read. -/
structure Context where
  request_id : String
deriving Repr, DecidableEq

/-- Truthiness of `event.get("body")` in Python: a present, non-empty string. -/
def bodyTruthy : Option String → Bool
  | none => false
  | some s => !(s == "")

/-- Outcome of the single `dynamodb_client.put_item` call, decided by the
external store: success, or a `ClientError` carrying the provider error
code and message. -/
inductive StoreOutcome where
  | ok
  | clientError (code : String) (msg : String)
deriving Repr, DecidableEq

/-- The provider code the handler treats as throttling. -/
def throttleCode : String := "ProvisionedThroughputExceededException"

/-- The record handed to the store.  `year` is placed under the DynamoDB
numeric attribute type `N`, `title` and `id` under the string type `S`;
all three values are Python strings by the time of the call. -/
structure Item where
  year : String
  title : String
  id : String
deriving Repr, DecidableEq

/-- One attempted `put_item` call: the table name from the environment and
the item. -/
structure PutRequest where
  tableName : Option String
  item : Item
deriving Repr, DecidableEq

inductive LogLevel where
  | info
  | warning
  | error
deriving Repr, DecidableEq

/-- One structured log emission: level, the `event` tag, and the remaining
key/value fields (Python `None` rendered as `"null"`, as `json.dumps` does). -/
structure LogEvent where
  level : LogLevel
  event : String
  fields : List (String × String)
deriving Repr, DecidableEq

/-- The HTTP-shaped response dictionary returned by the handler. -/
structure Response where
  statusCode : Nat
  headers : List (String × String)
  body : String
deriving Repr, DecidableEq

/-- Everything one invocation produces: the response, the list of store put
attempts (in order), and the emitted log events (in order). -/
structure HandlerResult where
  response : Response
  puts : List PutRequest
  logs : List LogEvent
deriving Repr, DecidableEq

/-- A local (non-store) failure raised inside the `try` block. -/
inductive PyErr where
  | jsonDecodeError (msg : String)
  | keyError (key : String)
  | typeError (msg : String)
deriving Repr, DecidableEq

/-- `type(e).__name__` for a local failure. -/
def PyErr.typeName : PyErr → String
  | .jsonDecodeError _ => "JSONDecodeError"
  | .keyError _ => "KeyError"
  | .typeError _ => "TypeError"

/-- `str(e)` for a local failure (Python renders `KeyError(k)` as the repr
of the key). -/
def PyErr.message : PyErr → String
  | .jsonDecodeError m => m
  | .keyError k => String.singleton squote ++ k ++ String.singleton squote
  | .typeError m => m

/-- `item[k]` on a parsed JSON value: a `KeyError` on a dict without the key,
a `TypeError` on any non-dict (message approximated). -/
def getField (j : Json) (k : String) : Except PyErr Json :=
  match j with
  | .obj kvs =>
    match lookupLast kvs k with
    | some v => .ok v
    | none => .error (.keyError k)
  | _ => .error (.typeError "value is not subscriptable by string keys")

/-- Lines 43-45 of the handler: read `year`, `title`, `id` in that order. -/
def extractFields (j : Json) : Except PyErr (Json × Json × Json) :=
  match getField j "year" with
  | .error e => .error e
  | .ok y =>
    match getField j "title" with
    | .error e => .error e
    | .ok t =>
      match getField j "id" with
      | .error e => .error e
      | .ok i => .ok (y, t, i)

/-- `json.dumps` of the single-key response bodies. -/
def dumpsMessage (m : String) : String :=
  String.singleton lbrace ++ "\"message\": \"" ++ m ++ "\"" ++ String.singleton rbrace

def contentTypeHeader : String × String := ("Content-Type", "application/json")

def successBody : String := dumpsMessage "Successfully inserted data!"

def throttledBody : String := dumpsMessage "Too many requests, please retry later"

def internalErrorBody : String := dumpsMessage "Internal server error"

/-- Render an optional string the way `json.dumps` renders the Python value
(`None` becomes `null`). -/
def optField : Option String → String
  | none => "null"
  | some s => s

/-- The `request_received` log line (lines 27-33). -/
def requestReceivedLog (event : Event) (rid : String) : LogEvent :=
  let ident := event.requestContext
  { level := .info
    event := "request_received"
    fields := [("request_id", rid),
               ("source_ip", optField (ident.bind RequestContext.sourceIp)),
               ("user_agent", optField (ident.bind RequestContext.userAgent)),
               ("http_method", optField (ident.bind RequestContext.httpMethod))] }

/-- The `processing_request` log line (lines 38-42 and 64-68). -/
def processingLog (rid : String) (hasPayload : Bool) : LogEvent :=
  { level := .info
    event := "processing_request"
    fields := [("request_id", rid), ("has_payload", if hasPayload then "true" else "false")] }

/-- The `dynamodb_write_success` log line (lines 52-56 and 79-83). -/
def writeSuccessLog (rid : String) (table : Option String) : LogEvent :=
  { level := .info
    event := "dynamodb_write_success"
    fields := [("request_id", rid), ("table", optField table)] }

/-- The `dynamodb_throttled` log line (lines 92-96). -/
def throttledLog (rid : String) (table : Option String) : LogEvent :=
  { level := .warning
    event := "dynamodb_throttled"
    fields := [("request_id", rid), ("table", optField table)] }

/-- The `dynamodb_error` log line (lines 106-111). -/
def dynamodbErrorLog (rid : String) (code : String) (msg : String) : LogEvent :=
  { level := .error
    event := "dynamodb_error"
    fields := [("request_id", rid), ("error_code", code), ("error_message", msg)] }

/-- The generic `error` log line of the outer `except Exception` (118-123). -/
def localErrorLog (rid : String) (e : PyErr) : LogEvent :=
  { level := .error
    event := "error"
    fields := [("request_id", rid), ("error_type", e.typeName), ("error_message", e.message)] }

/-- The `except Exception` exit (lines 117-128): log and return 500. -/
def localErrorResult (rid : String) (logs : List LogEvent) (e : PyErr) : HandlerResult :=
  { response := { statusCode := 500, headers := [contentTypeHeader], body := internalErrorBody }
    puts := []
    logs := logs ++ [localErrorLog rid e] }

/-- The `put_item` call and the `try`/`except ClientError` around it
(lines 47-50 / 70-77 with 90-116): the put is attempted once; on success the
200 path runs, on a `ClientError` the code is matched against the throttling
code. -/
def attemptPut (table : Option String) (rid : String) (store : StoreOutcome)
    (it : Item) (logs : List LogEvent) : HandlerResult :=
  match store with
  | .ok =>
    { response := { statusCode := 200, headers := [contentTypeHeader], body := successBody }
      puts := [{ tableName := table, item := it }]
      logs := logs ++ [writeSuccessLog rid table] }
  | .clientError code msg =>
    if code = throttleCode then
      { response := { statusCode := 429
                      headers := [contentTypeHeader, ("Retry-After", "5")]
                      body := throttledBody }
        puts := [{ tableName := table, item := it }]
        logs := logs ++ [throttledLog rid table] }
    else
      { response := { statusCode := 500, headers := [contentTypeHeader], body := internalErrorBody }
        puts := [{ tableName := table, item := it }]
        logs := logs ++ [dynamodbErrorLog rid code msg] }

/-- The Lambda handler of `index.py`, lines 22-128.  `table` is
`os.environ.get("TABLE_NAME")`, `genUUID` is the string `str(uuid.uuid4())`
would produce in this invocation, and `store` is the outcome the external
store gives the single `put_item` call. -/
def handler (table : Option String) (event : Event) (ctx : Context)
    (genUUID : String) (store : StoreOutcome) : HandlerResult :=
  let rid := ctx.request_id
  let logs0 := [requestReceivedLog event rid]
  if bodyTruthy event.body then
    match json_loads (event.body.getD "") with
    | .error m => localErrorResult rid logs0 (.jsonDecodeError m)
    | .ok item =>
      let logs1 := logs0 ++ [processingLog rid true]
      match extractFields item with
      | .error e => localErrorResult rid logs1 e
      | .ok (y, t, i) =>
        attemptPut table rid store { year := pyStr y, title := pyStr t, id := pyStr i } logs1
  else
    let logs1 := logs0 ++ [processingLog rid false]
    attemptPut table rid store
      { year := "2012", title := "The Amazing Spider-Man 2", id := genUUID } logs1

/-- Modelled from the spec: the canonical textual form of a version-4 UUID,
as produced by the standard Python `uuid.uuid4()` (the `uuid` library is not
part of this repository): 36 characters, hyphens at positions 8, 13, 18 and
23, the version nibble `4` at position 14, the variant nibble in `8..b` at
position 19, lowercase hex digits elsewhere. -/
def isCanonicalUUIDv4 (s : String) : Bool :=
  let cs := s.data
  cs.length == 36 && (List.range 36).all (fun k =>
    match cs.get? k with
    | none => false
    | some c =>
      if k == 8 || k == 13 || k == 18 || k == 23 then c == '-'
      else if k == 14 then c == '4'
      else if k == 19 then c == '8' || c == '9' || c == 'a' || c == 'b'
      else c.isDigit || ('a' ≤ c && c ≤ 'f'))

/-- The store modelled as a key-value map from `id` to the stored record;
`put` is insert-or-replace (the claim C8 reading of DynamoDB `put_item`). -/
def StoreMap : Type := String → Option Item

/-- Insert-or-replace one record under its `id`. -/
def putRecord (m : StoreMap) (it : Item) : StoreMap :=
  fun k => if k = it.id then some it else m k

/-- The store contents after an invocation: successful puts applied in order;
a failed invocation leaves the map unchanged. -/
def finalStore (m : StoreMap) (store : StoreOutcome) (puts : List PutRequest) : StoreMap :=
  match store with
  | .ok => puts.foldl (fun acc p => putRecord acc p.item) m
  | .clientError _ _ => m

/-! ### Structure lemmas

Every run of the handler either exits through the generic local-failure path
with no put attempted, or reaches the single `put_item` call. -/

theorem handler_shape (table : Option String) (event : Event) (ctx : Context)
    (g : String) (store : StoreOutcome) :
    (∃ e logs, handler table event ctx g store = localErrorResult ctx.request_id logs e) ∨
    (∃ it logs, handler table event ctx g store = attemptPut table ctx.request_id store it logs) := by
  unfold handler
  split
  · split
    · exact Or.inl ⟨_, _, rfl⟩
    · split
      · exact Or.inl ⟨_, _, rfl⟩
      · exact Or.inr ⟨_, _, rfl⟩
  · exact Or.inr ⟨_, _, rfl⟩

theorem localErrorResult_puts (rid : String) (logs : List LogEvent) (e : PyErr) :
    (localErrorResult rid logs e).puts = [] := rfl

theorem localErrorResult_status (rid : String) (logs : List LogEvent) (e : PyErr) :
    (localErrorResult rid logs e).response.statusCode = 500 := rfl

/-! ### The claims -/

/-- Claim C6: for every invocation and every store outcome, the response is
one of the three fixed responses — 200, 429 or 500, each with the
Content-Type: application/json header and the exact JSON body listed for
that status — and the Retry-After: 5 header is present exactly when the
status is 429.  Totality is the fact that `handler` is a total function. -/
theorem C6_response_one_of_three (table : Option String) (event : Event) (ctx : Context)
    (g : String) (store : StoreOutcome) :
    (((handler table event ctx g store).response.statusCode = 200 ∧
        (handler table event ctx g store).response.headers = [contentTypeHeader] ∧
        (handler table event ctx g store).response.body = successBody) ∨
      ((handler table event ctx g store).response.statusCode = 429 ∧
        (handler table event ctx g store).response.headers =
          [contentTypeHeader, ("Retry-After", "5")] ∧
        (handler table event ctx g store).response.body = throttledBody) ∨
      ((handler table event ctx g store).response.statusCode = 500 ∧
        (handler table event ctx g store).response.headers = [contentTypeHeader] ∧
        (handler table event ctx g store).response.body = internalErrorBody)) ∧
    ((("Retry-After", "5") ∈ (handler table event ctx g store).response.headers) ↔
      (handler table event ctx g store).response.statusCode = 429) := by
  rcases handler_shape table event ctx g store with ⟨e, logs, h⟩ | ⟨it, logs, h⟩
  · rw [h]
    refine ⟨Or.inr (Or.inr ⟨rfl, rfl, rfl⟩), ?_⟩
    simp [localErrorResult, contentTypeHeader]
  · rw [h]
    cases store with
    | ok =>
      refine ⟨Or.inl ⟨rfl, rfl, rfl⟩, ?_⟩
      simp [attemptPut, contentTypeHeader]
    | clientError code msg =>
      by_cases hc : code = throttleCode
      · refine ⟨Or.inr (Or.inl ⟨?_, ?_, ?_⟩), ?_⟩ <;>
          simp [attemptPut, hc, contentTypeHeader]
      · refine ⟨Or.inr (Or.inr ⟨?_, ?_, ?_⟩), ?_⟩ <;>
          simp [attemptPut, hc, contentTypeHeader]

/-- Claim C7: every invocation attempts at most one store put, and a 200
response can only arise when the single put succeeded — after a put failure
the invocation goes straight to a non-200 response with no second call. -/
theorem C7_at_most_one_put (table : Option String) (event : Event) (ctx : Context)
    (g : String) (store : StoreOutcome) :
    (handler table event ctx g store).puts.length ≤ 1 ∧
    ((handler table event ctx g store).response.statusCode = 200 → store = .ok) := by
  rcases handler_shape table event ctx g store with ⟨e, logs, h⟩ | ⟨it, logs, h⟩
  · rw [h]
    refine ⟨by simp [localErrorResult], fun h200 => absurd h200 (by simp [localErrorResult])⟩
  · rw [h]
    cases store with
    | ok => exact ⟨by simp [attemptPut], fun _ => rfl⟩
    | clientError code msg =>
      by_cases hc : code = throttleCode
      · exact ⟨by simp [attemptPut, hc], fun h200 => absurd h200 (by simp [attemptPut, hc])⟩
      · exact ⟨by simp [attemptPut, hc], fun h200 => absurd h200 (by simp [attemptPut, hc])⟩

/-- Witness for C7 at a concrete no-body invocation with a successful put. -/
theorem C7_at_most_one_put_witness :
    (handler (some "movies") { body := none, requestContext := none }
        { request_id := "req-0" } "u" .ok).puts.length ≤ 1 ∧
    ((handler (some "movies") { body := none, requestContext := none }
        { request_id := "req-0" } "u" .ok).response.statusCode = 200 →
      StoreOutcome.ok = StoreOutcome.ok) :=
  C7_at_most_one_put (some "movies") { body := none, requestContext := none }
    { request_id := "req-0" } "u" .ok

/-- Claim C4: when the single store put fails with the throttling condition,
the handler returns 429 with the Content-Type and Retry-After: 5 headers and
the fixed JSON body, logs a dynamodb_throttled warning event, and attempts no
further store call in the same invocation (the put attempt list has length
one). -/
theorem C4_throttled_put (table : Option String) (event : Event) (ctx : Context)
    (g msg : String)
    (hput : (handler table event ctx g (.clientError throttleCode msg)).puts ≠ []) :
    (handler table event ctx g (.clientError throttleCode msg)).response.statusCode = 429 ∧
    (handler table event ctx g (.clientError throttleCode msg)).response.headers =
      [contentTypeHeader, ("Retry-After", "5")] ∧
    (handler table event ctx g (.clientError throttleCode msg)).response.body = throttledBody ∧
    (handler table event ctx g (.clientError throttleCode msg)).puts.length = 1 ∧
    throttledLog ctx.request_id table ∈
      (handler table event ctx g (.clientError throttleCode msg)).logs := by
  rcases handler_shape table event ctx g (.clientError throttleCode msg) with
    ⟨e, logs, h⟩ | ⟨it, logs, h⟩
  · rw [h] at hput
    exact absurd rfl hput
  · rw [h] at hput ⊢
    simp [attemptPut]

/-- Witness for C4: the spec scenario body with a throttling store outcome. -/
theorem C4_throttled_put_witness :
    (handler (some "movies") { body := none, requestContext := none } { request_id := "req-4" }
        "u4" (.clientError throttleCode "slow down")).puts ≠ [] ∧
    ((handler (some "movies") { body := none, requestContext := none } { request_id := "req-4" }
        "u4" (.clientError throttleCode "slow down")).response.statusCode = 429 ∧
      (handler (some "movies") { body := none, requestContext := none } { request_id := "req-4" }
        "u4" (.clientError throttleCode "slow down")).response.headers =
          [contentTypeHeader, ("Retry-After", "5")] ∧
      (handler (some "movies") { body := none, requestContext := none } { request_id := "req-4" }
        "u4" (.clientError throttleCode "slow down")).response.body = throttledBody ∧
      (handler (some "movies") { body := none, requestContext := none } { request_id := "req-4" }
        "u4" (.clientError throttleCode "slow down")).puts.length = 1 ∧
      throttledLog "req-4" (some "movies") ∈
        (handler (some "movies") { body := none, requestContext := none } { request_id := "req-4" }
          "u4" (.clientError throttleCode "slow down")).logs) :=
  ⟨by decide, C4_throttled_put (some "movies") { body := none, requestContext := none }
    { request_id := "req-4" } "u4" "slow down" (by decide)⟩

/-- Claim C5: when the single store put fails with any non-throttling
provider error, the handler returns 500 with the fixed JSON body and logs a
dynamodb_error event carrying the provider error code and error message. -/
theorem C5_store_error_put (table : Option String) (event : Event) (ctx : Context)
    (g code msg : String) (hcode : code ≠ throttleCode)
    (hput : (handler table event ctx g (.clientError code msg)).puts ≠ []) :
    (handler table event ctx g (.clientError code msg)).response.statusCode = 500 ∧
    (handler table event ctx g (.clientError code msg)).response.headers =
      [contentTypeHeader] ∧
    (handler table event ctx g (.clientError code msg)).response.body = internalErrorBody ∧
    dynamodbErrorLog ctx.request_id code msg ∈
      (handler table event ctx g (.clientError code msg)).logs := by
  rcases handler_shape table event ctx g (.clientError code msg) with
    ⟨e, logs, h⟩ | ⟨it, logs, h⟩
  · rw [h] at hput
    exact absurd rfl hput
  · rw [h] at hput ⊢
    simp [attemptPut, hcode]

/-- Witness for C5: a no-body invocation whose put fails with a
non-throttling provider error. -/
theorem C5_store_error_put_witness :
    "InternalError" ≠ throttleCode ∧
    (handler (some "movies") { body := none, requestContext := none } { request_id := "req-5" }
        "u5" (.clientError "InternalError" "boom")).puts ≠ [] ∧
    ((handler (some "movies") { body := none, requestContext := none } { request_id := "req-5" }
        "u5" (.clientError "InternalError" "boom")).response.statusCode = 500 ∧
      (handler (some "movies") { body := none, requestContext := none } { request_id := "req-5" }
        "u5" (.clientError "InternalError" "boom")).response.headers = [contentTypeHeader] ∧
      (handler (some "movies") { body := none, requestContext := none } { request_id := "req-5" }
        "u5" (.clientError "InternalError" "boom")).response.body = internalErrorBody ∧
      dynamodbErrorLog "req-5" "InternalError" "boom" ∈
        (handler (some "movies") { body := none, requestContext := none } { request_id := "req-5" }
          "u5" (.clientError "InternalError" "boom")).logs) :=
  ⟨by decide, by decide,
    C5_store_error_put (some "movies") { body := none, requestContext := none }
      { request_id := "req-5" } "u5" "InternalError" "boom" (by decide) (by decide)⟩

theorem bodyTruthy_some_of_ne (s : String) (hne : s ≠ "") :
    bodyTruthy (some s) = true := by
  simp [bodyTruthy, hne]

theorem extractFields_of_present (kvs : List (String × Json)) (y t i : Json)
    (hy : lookupLast kvs "year" = some y)
    (ht : lookupLast kvs "title" = some t)
    (hi : lookupLast kvs "id" = some i) :
    extractFields (.obj kvs) = .ok (y, t, i) := by
  simp [extractFields, getField, hy, ht, hi]

theorem extractFields_error_of_missing (kvs : List (String × Json))
    (hmiss : lookupLast kvs "year" = none ∨ lookupLast kvs "title" = none ∨
      lookupLast kvs "id" = none) :
    ∃ k, extractFields (.obj kvs) = .error (.keyError k) := by
  rcases hy : lookupLast kvs "year" with _ | y
  · exact ⟨"year", by simp [extractFields, getField, hy]⟩
  · rcases ht : lookupLast kvs "title" with _ | t
    · exact ⟨"title", by simp [extractFields, getField, hy, ht]⟩
    · rcases hi : lookupLast kvs "id" with _ | i
      · exact ⟨"id", by simp [extractFields, getField, hy, ht, hi]⟩
      · rcases hmiss with h | h | h <;> simp_all

/-- Claim C1: an invocation whose present body parses as a JSON object
carrying year, title and id, and whose store put succeeds, returns 200 with
the success message body and issues exactly one put whose item holds the
Python string coercion of the supplied id and title and the numeric textual
(string) coercion of the supplied year. -/
theorem C1_valid_body (table : Option String) (event : Event) (ctx : Context)
    (g s : String) (kvs : List (String × Json)) (y t i : Json)
    (hs : event.body = some s) (hne : s ≠ "")
    (hparse : json_loads s = .ok (.obj kvs))
    (hy : lookupLast kvs "year" = some y)
    (ht : lookupLast kvs "title" = some t)
    (hi : lookupLast kvs "id" = some i) :
    (handler table event ctx g .ok).response.statusCode = 200 ∧
    (handler table event ctx g .ok).response.body = successBody ∧
    (handler table event ctx g .ok).puts =
      [{ tableName := table,
         item := { year := pyStr y, title := pyStr t, id := pyStr i } }] := by
  have hx := extractFields_of_present kvs y t i hy ht hi
  unfold handler
  rw [hs]
  simp [bodyTruthy_some_of_ne s hne, hparse, hx, attemptPut]

/-- Witness for C1: the spec scenario body, a successful put. -/
theorem C1_valid_body_witness :
    (handler (some "movies")
        { body :=
            some "\x7b\"year\": 2012, \"title\": \"The Amazing Spider-Man 2\", \"id\": \"abc123\"\x7d",
          requestContext := none }
        { request_id := "req-1" } "u1" .ok).response.statusCode = 200 ∧
    (handler (some "movies")
        { body :=
            some "\x7b\"year\": 2012, \"title\": \"The Amazing Spider-Man 2\", \"id\": \"abc123\"\x7d",
          requestContext := none }
        { request_id := "req-1" } "u1" .ok).response.body = successBody ∧
    (handler (some "movies")
        { body :=
            some "\x7b\"year\": 2012, \"title\": \"The Amazing Spider-Man 2\", \"id\": \"abc123\"\x7d",
          requestContext := none }
        { request_id := "req-1" } "u1" .ok).puts =
      [{ tableName := some "movies",
         item := { year := pyStr (.num 2012),
                   title := pyStr (.str "The Amazing Spider-Man 2"),
                   id := pyStr (.str "abc123") } }] :=
  C1_valid_body (some "movies")
    { body := some "\x7b\"year\": 2012, \"title\": \"The Amazing Spider-Man 2\", \"id\": \"abc123\"\x7d",
      requestContext := none }
    { request_id := "req-1" } "u1"
    "\x7b\"year\": 2012, \"title\": \"The Amazing Spider-Man 2\", \"id\": \"abc123\"\x7d"
    [("year", .num 2012), ("title", .str "The Amazing Spider-Man 2"), ("id", .str "abc123")]
    (.num 2012) (.str "The Amazing Spider-Man 2") (.str "abc123")
    rfl (by decide) rfl rfl rfl rfl

/-- Claim C2: a no-body invocation whose store put succeeds returns 200 and
issues exactly one put with the fixed default title and year and the freshly
generated uuid4 string as id; canonical-form generator outputs give
canonical-form ids, and two invocations with distinct generator outputs
write distinct ids. -/
theorem C2_no_body_defaults (table : Option String) (e1 e2 : Event) (c1 c2 : Context)
    (g1 g2 : String)
    (h1 : bodyTruthy e1.body = false) (h2 : bodyTruthy e2.body = false)
    (hg1 : isCanonicalUUIDv4 g1 = true)
    (hne : g1 ≠ g2) :
    (handler table e1 c1 g1 .ok).response.statusCode = 200 ∧
    (handler table e1 c1 g1 .ok).response.body = successBody ∧
    (handler table e1 c1 g1 .ok).puts =
      [{ tableName := table,
         item := { year := "2012", title := "The Amazing Spider-Man 2", id := g1 } }] ∧
    (∀ p ∈ (handler table e1 c1 g1 .ok).puts, isCanonicalUUIDv4 p.item.id = true) ∧
    (handler table e1 c1 g1 .ok).puts.map (fun p => p.item.id) ≠
      (handler table e2 c2 g2 .ok).puts.map (fun p => p.item.id) := by
  unfold handler
  simp [h1, h2, attemptPut, hg1, hne]

/-- Witness for C2: two concrete no-body invocations with distinct canonical
uuid4 outputs. -/
theorem C2_no_body_defaults_witness :
    (handler (some "movies") { body := none, requestContext := none }
        { request_id := "req-2" } "11111111-2222-4333-8444-555555555555" .ok).response.statusCode
        = 200 ∧
    (handler (some "movies") { body := none, requestContext := none }
        { request_id := "req-2" } "11111111-2222-4333-8444-555555555555" .ok).response.body
        = successBody ∧
    (handler (some "movies") { body := none, requestContext := none }
        { request_id := "req-2" } "11111111-2222-4333-8444-555555555555" .ok).puts =
      [{ tableName := some "movies",
         item := { year := "2012", title := "The Amazing Spider-Man 2",
                   id := "11111111-2222-4333-8444-555555555555" } }] ∧
    (∀ p ∈ (handler (some "movies") { body := none, requestContext := none }
        { request_id := "req-2" } "11111111-2222-4333-8444-555555555555" .ok).puts,
      isCanonicalUUIDv4 p.item.id = true) ∧
    (handler (some "movies") { body := none, requestContext := none }
        { request_id := "req-2" } "11111111-2222-4333-8444-555555555555" .ok).puts.map
          (fun p => p.item.id) ≠
      (handler (some "movies") { body := some "", requestContext := none }
        { request_id := "req-2b" } "00000000-0000-4000-8000-000000000000" .ok).puts.map
          (fun p => p.item.id) :=
  C2_no_body_defaults (some "movies")
    { body := none, requestContext := none } { body := some "", requestContext := none }
    { request_id := "req-2" } { request_id := "req-2b" }
    "11111111-2222-4333-8444-555555555555" "00000000-0000-4000-8000-000000000000"
    (by decide) (by decide) (by decide) (by decide)

/-- Claim C3: a present body that is malformed JSON or parses to an object
missing year, title or id yields 500 with the generic body, zero store put
attempts, and an error-level log event tagged error that carries the failure
type name and message. -/
theorem C3_bad_body (table : Option String) (event : Event) (ctx : Context)
    (g : String) (store : StoreOutcome) (s : String)
    (hs : event.body = some s) (hne : s ≠ "")
    (hbad : (∃ m, json_loads s = .error m) ∨
      (∃ kvs, json_loads s = .ok (.obj kvs) ∧
        (lookupLast kvs "year" = none ∨ lookupLast kvs "title" = none ∨
          lookupLast kvs "id" = none))) :
    (handler table event ctx g store).response.statusCode = 500 ∧
    (handler table event ctx g store).response.body = internalErrorBody ∧
    (handler table event ctx g store).puts = [] ∧
    ∃ e : PyErr, localErrorLog ctx.request_id e ∈ (handler table event ctx g store).logs := by
  unfold handler
  rw [hs]
  rcases hbad with ⟨m, hm⟩ | ⟨kvs, hk, hmiss⟩
  · simp [bodyTruthy_some_of_ne s hne, hm, localErrorResult]
    exact ⟨.jsonDecodeError m, Or.inr rfl⟩
  · obtain ⟨k, hx⟩ := extractFields_error_of_missing kvs hmiss
    simp [bodyTruthy_some_of_ne s hne, hk, hx, localErrorResult]
    exact ⟨.keyError k, Or.inr (Or.inr rfl)⟩

/-- Witness for C3: a body carrying only a year field. -/
theorem C3_bad_body_witness :
    (handler (some "movies") { body := some "\x7b\"year\": 1\x7d", requestContext := none }
        { request_id := "req-3" } "u3" .ok).response.statusCode = 500 ∧
    (handler (some "movies") { body := some "\x7b\"year\": 1\x7d", requestContext := none }
        { request_id := "req-3" } "u3" .ok).response.body = internalErrorBody ∧
    (handler (some "movies") { body := some "\x7b\"year\": 1\x7d", requestContext := none }
        { request_id := "req-3" } "u3" .ok).puts = [] ∧
    ∃ e : PyErr, localErrorLog "req-3" e ∈
      (handler (some "movies") { body := some "\x7b\"year\": 1\x7d", requestContext := none }
        { request_id := "req-3" } "u3" .ok).logs :=
  C3_bad_body (some "movies") { body := some "\x7b\"year\": 1\x7d", requestContext := none }
    { request_id := "req-3" } "u3" .ok "\x7b\"year\": 1\x7d" rfl (by decide)
    (Or.inr ⟨[("year", .num 1)], rfl, Or.inr (Or.inl rfl)⟩)

/-- Claim C8: a 200 response implies the put succeeded, and the store —
modelled as a key-value map whose put is insert-or-replace — afterwards
holds a record under the written id whose title and year are the submitted
values (under the Python string coercion the handler applies), or the fixed
defaults for a no-body invocation. -/
theorem C8_store_roundtrip (table : Option String) (event : Event) (ctx : Context)
    (g : String) (store : StoreOutcome) (m0 : StoreMap)
    (h200 : (handler table event ctx g store).response.statusCode = 200) :
    store = .ok ∧
    ∃ it : Item,
      (handler table event ctx g store).puts = [{ tableName := table, item := it }] ∧
      finalStore m0 store (handler table event ctx g store).puts it.id = some it ∧
      (bodyTruthy event.body = false →
        it = { year := "2012", title := "The Amazing Spider-Man 2", id := g }) ∧
      (∀ s kvs y t i, event.body = some s → json_loads s = .ok (.obj kvs) →
        lookupLast kvs "year" = some y → lookupLast kvs "title" = some t →
        lookupLast kvs "id" = some i →
        it = { year := pyStr y, title := pyStr t, id := pyStr i }) := by
  revert h200
  unfold handler
  split
  · split
    · intro h200
      exact absurd h200 (by simp [localErrorResult])
    · split
      · intro h200
        exact absurd h200 (by simp [localErrorResult])
      · cases store with
        | clientError code msg =>
          intro h200
          by_cases hc : code = throttleCode <;> simp [attemptPut, hc] at h200
        | ok =>
          intro h200
          rename_i hb xj item hj xe y0 t0 i0 hx
          refine ⟨rfl, { year := pyStr y0, title := pyStr t0, id := pyStr i0 }, rfl, ?_, ?_, ?_⟩
          · simp [attemptPut, finalStore, putRecord]
          · intro hfalse
            rw [hfalse] at hb
            cases hb
          · intro s kvs y t i hsome hparse hy ht hi
            rw [hsome] at hj
            simp only [Option.getD_some] at hj
            have hitem := hparse.symm.trans hj
            injection hitem with hitem
            subst hitem
            have h2 := (extractFields_of_present kvs y t i hy ht hi).symm.trans hx
            simp only [Except.ok.injEq, Prod.mk.injEq] at h2
            obtain ⟨hyy, htt, hii⟩ := h2
            rw [hyy, htt, hii]
  · cases store with
    | clientError code msg =>
      intro h200
      by_cases hc : code = throttleCode <;> simp [attemptPut, hc] at h200
    | ok =>
      intro h200
      rename_i hb
      refine ⟨rfl, { year := "2012", title := "The Amazing Spider-Man 2", id := g }, rfl,
        ?_, fun _ => rfl, ?_⟩
      · simp [attemptPut, finalStore, putRecord]
      · intro s kvs y t i hsome hparse hy ht hi
        rw [hsome] at hb
        simp [bodyTruthy] at hb
        subst hb
        exact Except.noConfusion
          (show (Except.error "Expecting value" : Except String Json) =
            Except.ok (Json.obj kvs) from hparse)

/-- Witness for C8: the concrete no-body invocation, an empty initial store
map. -/
theorem C8_store_roundtrip_witness :
    StoreOutcome.ok = StoreOutcome.ok ∧
    ∃ it : Item,
      (handler (some "movies") { body := none, requestContext := none }
          { request_id := "req-8" } "u8" .ok).puts = [{ tableName := some "movies", item := it }] ∧
      finalStore (fun _ => none) .ok
          (handler (some "movies") { body := none, requestContext := none }
            { request_id := "req-8" } "u8" .ok).puts it.id = some it ∧
      (bodyTruthy (Event.body { body := none, requestContext := none }) = false →
        it = { year := "2012", title := "The Amazing Spider-Man 2", id := "u8" }) ∧
      (∀ s kvs y t i,
        Event.body { body := none, requestContext := none } = some s →
        json_loads s = .ok (.obj kvs) →
        lookupLast kvs "year" = some y → lookupLast kvs "title" = some t →
        lookupLast kvs "id" = some i →
        it = { year := pyStr y, title := pyStr t, id := pyStr i }) :=
  C8_store_roundtrip (some "movies") { body := none, requestContext := none }
    { request_id := "req-8" } "u8" .ok (fun _ => none) (by decide)

/-- Claim C9 (amended): an event whose body is present as the empty string
behaves exactly as an event with no body — identical response, put attempts
and logs, taking the default-record path without parsing — and in particular
it never produces a parse error; it returns 200 whenever the store put
succeeds, and returns a non-200 status only in exactly the store-failure
cases in which a no-body invocation would. -/
theorem C9_empty_body_like_absent (table : Option String) (rc : Option RequestContext)
    (ctx : Context) (g : String) (store : StoreOutcome) :
    handler table { body := some "", requestContext := rc } ctx g store =
      handler table { body := none, requestContext := rc } ctx g store ∧
    (store = .ok →
      (handler table { body := some "", requestContext := rc }
        ctx g store).response.statusCode = 200) := by
  refine ⟨rfl, ?_⟩
  intro h
  subst h
  rfl

/-- Witness for C9 (amended) at a concrete invocation. -/
theorem C9_empty_body_like_absent_witness :
    handler (some "movies") { body := some "", requestContext := none } { request_id := "req-9" }
        "u9" .ok =
      handler (some "movies") { body := none, requestContext := none } { request_id := "req-9" }
        "u9" .ok ∧
    (StoreOutcome.ok = StoreOutcome.ok →
      (handler (some "movies") { body := some "", requestContext := none }
        { request_id := "req-9" } "u9" .ok).response.statusCode = 200) :=
  C9_empty_body_like_absent (some "movies") none { request_id := "req-9" } "u9" .ok

/-- Counterexample to claim C9 as stated: an invocation with the body
present as the empty string, whose store put fails with a non-throttling
error, returns 500 — so an empty-string body can produce a 500. -/
theorem C9_empty_body_counterexample :
    (handler (some "movies") { body := some "", requestContext := none }
        { request_id := "req-9c" } "u9c"
        (.clientError "InternalError" "boom")).response.statusCode = 500 := by
  decide

theorem attemptPut_response_puts_eq (table : Option String) (rid1 rid2 : String)
    (store : StoreOutcome) (it : Item) (logs1 logs2 : List LogEvent) :
    (attemptPut table rid1 store it logs1).response =
      (attemptPut table rid2 store it logs2).response ∧
    (attemptPut table rid1 store it logs1).puts =
      (attemptPut table rid2 store it logs2).puts := by
  cases store with
  | ok => exact ⟨rfl, rfl⟩
  | clientError code msg =>
    by_cases hc : code = throttleCode <;> simp [attemptPut, hc]

/-- Claim C10: two invocations that differ only in request metadata and the
request identifier — same body, same generator output, same store outcome —
produce the same response and the same store puts; metadata and request id
flow only into the log events. -/
theorem C10_metadata_only_logs (table : Option String) (body : Option String)
    (rc1 rc2 : Option RequestContext) (rid1 rid2 g : String) (store : StoreOutcome) :
    (handler table { body := body, requestContext := rc1 }
        { request_id := rid1 } g store).response =
      (handler table { body := body, requestContext := rc2 }
        { request_id := rid2 } g store).response ∧
    (handler table { body := body, requestContext := rc1 }
        { request_id := rid1 } g store).puts =
      (handler table { body := body, requestContext := rc2 }
        { request_id := rid2 } g store).puts := by
  unfold handler
  cases hb : bodyTruthy body with
  | false =>
    simp only [hb, Bool.false_eq_true, if_false]
    exact attemptPut_response_puts_eq table rid1 rid2 store _ _ _
  | true =>
    simp only [hb, if_true]
    split
    · exact ⟨rfl, rfl⟩
    · split
      · exact ⟨rfl, rfl⟩
      · exact attemptPut_response_puts_eq table rid1 rid2 store _ _ _

end AwsExample
